import Mathlib

/-!
Formal model of the AAA refactor tool's request-construction and dispatch
pipeline, embedded from `src/backend/server.py` and
`src/backend/aaa_analyzer.py`.

External collaborators are made explicit:
* CPython's `ast.parse`/`ast.dump` pair is either an abstract parameter
  `ast_parse : String → Except Unit String` (the `Except.error` case is the
  `SyntaxError` that `analyze_code` catches; the payload is unused), or the
  concrete partial model `ast_parse_dump` below for concrete evaluations.
* The Gemini backend call `self.model.generate_content(...)` is a parameter
  `generate_content : String → Except String String`; `Except.error e` models
  the call raising an exception whose `str(e)` is `e`, `Except.ok t` models a
  normal reply whose `.text` is `t`.

Python dict literals returned by the endpoint are embedded as association
lists `List (String × String)` so that field names are part of the model.
-/

/-- Partial model of CPython's `ast.dump(ast.parse(s), indent=2)` (the Python
standard library, external to this repository), restricted to the concrete
inputs used as evaluation points below. In CPython, parsing the empty string
succeeds and yields an empty `Module` node, whose dump is
`Module(body=[], type_ignores=[])`; the snippet `def test(:` raises
`SyntaxError`. Inputs outside this table are mapped to a parse error and are
never used at a concrete evaluation point. -/
def ast_parse_dump (s : String) : Except Unit String :=
  if s = "" then Except.ok "Module(body=[], type_ignores=[])"
  else if s = "def test(:" then Except.error ()
  else Except.error ()

/-- The request envelope built in `analyze_code` (`server.py`): a literal
transcription of the `formatted_input` f-string, including its indentation,
the trailing spaces on the line after `</ast>`, and the doubled angle bracket
in `<<production_code>`. -/
def formatted_input (code ast_string : String) : String :=
  "\n    <test_code>\n    " ++ code ++ "\n    </test_code>\n\n    <ast>\n    "
    ++ ast_string
    ++ "\n    </ast>\n    \n    <<production_code>\n    # Not provided in this context\n    </production_code>\n    "

/-- The oracle client of `aaa_analyzer.py`. The construction-time state that
matters to the model is the chosen model name; the bound Gemini model's
request function is passed to `AAAAnalyzer.analyze` explicitly. -/
structure AAAAnalyzer where
  model_name : String

/-- The body of `AAAAnalyzer.__init__`: `if not api_key: raise ValueError(...)`.
For a `str` argument, `not api_key` is true exactly when the string is empty,
so construction fails on the empty credential and otherwise yields a client. -/
def AAAAnalyzer.init (api_key : String) (model_name : String) :
    Except String AAAAnalyzer :=
  if api_key = "" then Except.error "API Key is required for AAAAnalyzer"
  else Except.ok ⟨model_name⟩

/-- The body of `AAAAnalyzer.analyze`: call `self.model.generate_content` on
the formatted test case and return `response.text`; on any `Exception e`,
return the `<analysis><error>...</error></analysis>` marker built from
`str(e)`. The function is total: it never propagates the backend failure. -/
def AAAAnalyzer.analyze (generate_content : String → Except String String)
    (formatted_test_case : String) : String :=
  match generate_content formatted_test_case with
  | Except.ok response => response
  | Except.error e => "<analysis><error>Gemini API Failed: " ++ e ++ "</error></analysis>"

/-- Startup segment of `server.py` (SEGMENT 1): read `GEMINI_API_KEY` from the
environment (`none` models an unset variable), raise
`ValueError("❌ No API Key found! ...")` when it is absent or empty
(`if not api_key`), and otherwise construct the module-level `AAAAnalyzer`
with the fixed model name. The `Except.error` case models the process failing
before the app can serve any request. -/
def server_startup (gemini_api_key : Option String) : Except String AAAAnalyzer :=
  match gemini_api_key with
  | none => Except.error "❌ No API Key found! Check your .env file."
  | some k =>
      if k = "" then Except.error "❌ No API Key found! Check your .env file."
      else AAAAnalyzer.init k "gemini-3-flash-preview"

/-- Result of one call to the `/analyze` endpoint: the returned JSON object as
an association list in the key order written in the source, plus the list of
envelopes passed to `analyzer.analyze` during the request (the code builds the
envelope only as the argument of that call, so this list also records the
envelopes built). -/
structure DispatchResult where
  response : List (String × String)
  oracle_calls : List String

/-- The `/analyze` endpoint body (`analyze_code` in `server.py`):
parse the snippet and dump its AST; on `SyntaxError` return the
`"❌ Syntax Error"` record without touching the oracle; otherwise build
`formatted_input`, call `analyzer.analyze` on it inside a `try`, and return
either the `"✅ Analysis Complete"` record carrying the oracle text or, if the
call raised `e`, the `"❌ Analysis Failed"` record carrying `f"Error: ..."`.
`ast_parse` abstracts `ast.parse`/`ast.dump`; `analyzer_analyze` abstracts the
`analyzer.analyze` call as seen by this `try` block (`Except.error e` models
the call raising with `str(e) = e`). -/
def analyze_code (ast_parse : String → Except Unit String)
    (analyzer_analyze : String → Except String String) (code : String) :
    DispatchResult :=
  match ast_parse code with
  | Except.error _ =>
      ⟨[("message", "❌ Syntax Error"),
        ("analysis_result", "<analysis><error>Invalid Python Code</error></analysis>")],
       []⟩
  | Except.ok ast_string =>
      match analyzer_analyze (formatted_input code ast_string) with
      | Except.ok result =>
          ⟨[("message", "✅ Analysis Complete"), ("analysis_result", result)],
           [formatted_input code ast_string]⟩
      | Except.error e =>
          ⟨[("message", "❌ Analysis Failed"), ("analysis_result", "Error: " ++ e)],
           [formatted_input code ast_string]⟩

/-- Value of the field named `message` in a dispatch response. -/
def message_of (r : DispatchResult) : String :=
  ((r.response.find? fun p => p.1 == "message").map Prod.snd).getD ""

/-- Value of the field named `analysis_result` in a dispatch response. -/
def result_of (r : DispatchResult) : String :=
  ((r.response.find? fun p => p.1 == "analysis_result").map Prod.snd).getD ""

/-- Splits a character list at newline characters. -/
def splitLinesAux : List Char → List Char → List (List Char)
  | [], acc => [acc.reverse]
  | c :: cs, acc =>
      if c = '\n' then acc.reverse :: splitLinesAux cs []
      else splitLinesAux cs (c :: acc)

/-- The lines of a string, in order, as produced by splitting at newlines. -/
def pyLines (s : String) : List String :=
  (splitLinesAux s.data []).map fun l => String.mk l

/-- A string has the oracle error-schema shape when it starts with
`<analysis><error>` and ends with `</error></analysis>`. -/
def analysis_error_shape (s : String) : Prop :=
  (∃ t, s.data = "<analysis><error>".data ++ t)
    ∧ ∃ t, s.data = t ++ "</error></analysis>".data

/-- Exception raised by the parse step. The handler's `except SyntaxError:`
distinguishes `SyntaxError` (caught) from every other exception (uncaught,
carrying `str(e)`): CPython's `ast.parse` can also raise non-SyntaxError
exceptions, e.g. `UnicodeEncodeError` — a `ValueError` — on a `str` holding a
lone surrogate. -/
inductive PyExn where
  | SyntaxError
  | OtherExn (e : String)

/-- Exception-aware embedding of the `/analyze` endpoint body: identical to
`analyze_code` except that the parse step may raise any `PyExn`, and only
`PyExn.SyntaxError` is caught by the `except SyntaxError:` clause of
`server.py`; any other exception from `ast.parse` propagates out of the
handler (the `Except.error` result), so no response record is produced for
that request. -/
def analyze_code_exn (ast_parse : String → Except PyExn String)
    (analyzer_analyze : String → Except String String) (code : String) :
    Except String DispatchResult :=
  match ast_parse code with
  | Except.error PyExn.SyntaxError =>
      Except.ok
        ⟨[("message", "❌ Syntax Error"),
          ("analysis_result", "<analysis><error>Invalid Python Code</error></analysis>")],
         []⟩
  | Except.error (PyExn.OtherExn e) => Except.error e
  | Except.ok ast_string =>
      match analyzer_analyze (formatted_input code ast_string) with
      | Except.ok result =>
          Except.ok
            ⟨[("message", "✅ Analysis Complete"), ("analysis_result", result)],
             [formatted_input code ast_string]⟩
      | Except.error e =>
          Except.ok
            ⟨[("message", "❌ Analysis Failed"), ("analysis_result", "Error: " ++ e)],
             [formatted_input code ast_string]⟩

/-- Exception-aware partial model of CPython's
`ast.dump(ast.parse(s), indent=2)`, extending `ast_parse_dump` with the
exception kind. Lean strings hold only Unicode scalar values, so the Python
`str` consisting of the single lone surrogate U+D800 — a legal `str` value —
is represented here by its escape spelling `\ud800`; on it CPython raises
`UnicodeEncodeError` (a `ValueError`, not a `SyntaxError`), whose message the
model abbreviates. Inputs outside the table are mapped to `SyntaxError` and
are never used at a concrete evaluation point. -/
def ast_parse_dump_exn (s : String) : Except PyExn String :=
  if s = "" then Except.ok "Module(body=[], type_ignores=[])"
  else if s = "def test(:" then Except.error PyExn.SyntaxError
  else if s = "\\ud800" then
    Except.error (PyExn.OtherExn "UnicodeEncodeError: surrogates not allowed")
  else Except.error PyExn.SyntaxError

/-- C1: the claim says the envelope contains a `<test_code>` section, an
`<ast>` section and a `<production_code>` placeholder section in that fixed
order, each opened and closed with those exact tags, with the raw source
verbatim inside the test_code section. Evaluating the builder at the valid
input `""` (empty program): the test_code and ast sections and the
production-code closing tag are present as exact tag lines, but the
production-code section is opened by the line `    <<production_code>` — a
doubled angle bracket — and no line of the envelope carries the exact opening
tag `<production_code>` demanded by the spec's fixed template. -/
theorem C1_production_tag_bug :
    (pyLines (formatted_input "" "Module(body=[], type_ignores=[])")).contains "    <test_code>" = true
  ∧ (pyLines (formatted_input "" "Module(body=[], type_ignores=[])")).contains "    </test_code>" = true
  ∧ (pyLines (formatted_input "" "Module(body=[], type_ignores=[])")).contains "    <ast>" = true
  ∧ (pyLines (formatted_input "" "Module(body=[], type_ignores=[])")).contains "    </ast>" = true
  ∧ (pyLines (formatted_input "" "Module(body=[], type_ignores=[])")).contains "    </production_code>" = true
  ∧ (pyLines (formatted_input "" "Module(body=[], type_ignores=[])")).contains "    <<production_code>" = true
  ∧ (pyLines (formatted_input "" "Module(body=[], type_ignores=[])")).contains "    <production_code>" = false := by
  decide

/-- C2 counterexample: the claim says the response record has exactly two
fields named `status` and `result`. At the concrete request `""` (with a stub
oracle echoing its input) the endpoint's response object has the key list
`["message", "analysis_result"]`, not `["status", "result"]`. -/
theorem C2_no_status_field :
    ((analyze_code ast_parse_dump (fun s => Except.ok s) "").response.map Prod.fst)
      ≠ ["status", "result"]
  ∧ ((analyze_code ast_parse_dump (fun s => Except.ok s) "").response.map Prod.fst)
      = ["message", "analysis_result"] := by
  constructor
  · decide
  · decide

/-- C2 (amended): for every inbound request, the response record has exactly
two fields, named `message` and `analysis_result` (not `status`/`result`),
where `message` is exactly one of the three strings `"✅ Analysis Complete"`,
`"❌ Syntax Error"`, `"❌ Analysis Failed"` — the spec's three labels carry an
emoji prefix in the code — and `analysis_result` is the oracle text or an
error body. The `count _ = 1` conjunct states that exactly one of the three
tags is set per request. -/
theorem C2_response_fields (ast_parse : String → Except Unit String)
    (analyzer_analyze : String → Except String String) (code : String) :
    ∃ m r, (analyze_code ast_parse analyzer_analyze code).response
        = [("message", m), ("analysis_result", r)]
      ∧ (["✅ Analysis Complete", "❌ Syntax Error", "❌ Analysis Failed"].count m) = 1 := by
  cases h : ast_parse code with
  | error e =>
      exact ⟨"❌ Syntax Error", "<analysis><error>Invalid Python Code</error></analysis>",
        by simp [analyze_code, h], by decide⟩
  | ok ast_string =>
      cases h2 : analyzer_analyze (formatted_input code ast_string) with
      | ok result =>
          exact ⟨"✅ Analysis Complete", result, by simp [analyze_code, h, h2], by decide⟩
      | error e =>
          exact ⟨"❌ Analysis Failed", "Error: " ++ e, by simp [analyze_code, h, h2], by decide⟩

/-- C3: whenever parsing the snippet fails (the `SyntaxError` branch), the
endpoint returns the syntax-error record and the oracle-call list is empty:
no envelope is built and `analyzer.analyze` is never invoked. -/
theorem C3_invalid_input_short_circuit (ast_parse : String → Except Unit String)
    (analyzer_analyze : String → Except String String) (code : String)
    (h : ast_parse code = Except.error ()) :
    (analyze_code ast_parse analyzer_analyze code).response
        = [("message", "❌ Syntax Error"),
           ("analysis_result", "<analysis><error>Invalid Python Code</error></analysis>")]
      ∧ (analyze_code ast_parse analyzer_analyze code).oracle_calls = [] := by
  unfold analyze_code
  rw [h]
  exact ⟨rfl, rfl⟩

/-- C3 witness: the malformed snippet `def test(:` of the spec's end-to-end
scenario 2 is rejected by the parser model, reported as a syntax error, and
the oracle receives zero calls. -/
theorem C3_invalid_input_short_circuit_witness :
    (analyze_code ast_parse_dump (fun s => Except.ok s) "def test(:").response
        = [("message", "❌ Syntax Error"),
           ("analysis_result", "<analysis><error>Invalid Python Code</error></analysis>")]
      ∧ (analyze_code ast_parse_dump (fun s => Except.ok s) "def test(:").oracle_calls = [] :=
  C3_invalid_input_short_circuit ast_parse_dump (fun s => Except.ok s) "def test(:" rfl

/-- C4: whenever the remote backend call raises (the `Except.error` case of
`generate_content`), `AAAAnalyzer.analyze` does not propagate the failure: it
returns the textual `<analysis><error>...</error></analysis>` document
carrying the failure description — the oracle's own output schema. -/
theorem C4_analyze_normalizes_failure
    (generate_content : String → Except String String) (envl e : String)
    (h : generate_content envl = Except.error e) :
    AAAAnalyzer.analyze generate_content envl
      = "<analysis><error>Gemini API Failed: " ++ e ++ "</error></analysis>" := by
  simp [AAAAnalyzer.analyze, h]

/-- C4 witness: a backend stub that always raises with description `timeout`
is normalized by `analyze` into the error-schema text. -/
theorem C4_analyze_normalizes_failure_witness :
    (fun _ => Except.error "timeout" : String → Except String String) "<test_code></test_code>"
        = Except.error "timeout"
      ∧ AAAAnalyzer.analyze (fun _ => Except.error "timeout") "<test_code></test_code>"
        = "<analysis><error>Gemini API Failed: " ++ "timeout" ++ "</error></analysis>" :=
  ⟨rfl, C4_analyze_normalizes_failure (fun _ => Except.error "timeout")
    "<test_code></test_code>" "timeout" rfl⟩

/-- C5: constructing the oracle client with the empty credential fails with
the `ValueError` of `AAAAnalyzer.__init__` (the spec's `ConfigurationError`),
so no client value — and hence no `analyze` call — can exist; and the server
startup segment fails before serving whenever the `GEMINI_API_KEY` variable is
absent or empty, so the process refuses to start without a credential. -/
theorem C5_missing_credential_fatal (gemini_api_key : Option String)
    (model_name : String)
    (h : gemini_api_key = none ∨ gemini_api_key = some "") :
    (∃ e, server_startup gemini_api_key = Except.error e)
      ∧ ∃ e, AAAAnalyzer.init "" model_name = Except.error e := by
  constructor
  · rcases h with h | h <;> subst h <;> exact ⟨_, rfl⟩
  · exact ⟨_, rfl⟩

/-- C5 witness: startup with an empty `GEMINI_API_KEY` fails, and direct
construction with the empty credential fails. -/
theorem C5_missing_credential_fatal_witness :
    (∃ e, server_startup (some "") = Except.error e)
      ∧ ∃ e, AAAAnalyzer.init "" "gemini-3-flash-preview" = Except.error e :=
  C5_missing_credential_fatal (some "") "gemini-3-flash-preview" (Or.inr rfl)

/-- C6: structural extraction is deterministic. In the embedding the
extraction step `ast.dump(ast.parse(s), indent=2)` is a pure function of the
source text (as in CPython, where its output depends only on the input for a
fixed interpreter), so two runs on the same input that succeed yield the same
structural-dump text. -/
theorem C6_extract_deterministic (s d1 d2 : String)
    (h1 : ast_parse_dump s = Except.ok d1) (h2 : ast_parse_dump s = Except.ok d2) :
    d1 = d2 :=
  Except.ok.inj (h1.symm.trans h2)

/-- C6 witness: two extractions of the empty program both yield the dump of
the empty module, and those dumps are equal. -/
theorem C6_extract_deterministic_witness :
    ast_parse_dump "" = Except.ok "Module(body=[], type_ignores=[])"
      ∧ "Module(body=[], type_ignores=[])" = "Module(body=[], type_ignores=[])" :=
  ⟨rfl, C6_extract_deterministic "" "Module(body=[], type_ignores=[])"
    "Module(body=[], type_ignores=[])" rfl rfl⟩

/-- C7 counterexample: the claim says no per-request failure of any kind
makes dispatch raise an unhandled fault and that every input text yields
exactly one report. The Python `str` consisting of the lone surrogate U+D800
(written by its escape spelling, see `ast_parse_dump_exn`) makes `ast.parse`
raise `UnicodeEncodeError` — a `ValueError`, not a `SyntaxError` — which the
handler's `except SyntaxError:` does not catch: at that concrete input the
dispatch propagates the exception and produces no report. -/
theorem C7_unhandled_fault_on_surrogate :
    analyze_code_exn ast_parse_dump_exn (fun s => Except.ok s) "\\ud800"
        = Except.error "UnicodeEncodeError: surrogates not allowed"
      ∧ (analyze_code_exn ast_parse_dump_exn (fun s => Except.ok s) "\\ud800").toOption
        = none := by
  exact ⟨rfl, rfl⟩

/-- C7 (amended): after startup, every per-request failure arising in the
branches the handler guards — a `SyntaxError` from parsing, or any exception
from the oracle call — degrades to a returned report, never an unhandled
fault: whenever the parse step does not raise a non-SyntaxError exception,
dispatch returns exactly one report whose two fields are `message` and
`analysis_result`, whose message carries exactly one of the three tags, and
whose tag maps the outcome (parse failure to the syntax-error tag, an oracle
exception to the analysis-failed tag, a normal oracle reply to the
analysis-complete tag with the oracle text as result). A non-SyntaxError
exception from the parse step, as in the counterexample, is the one
per-request failure that instead propagates. -/
theorem C7_guarded_outcomes_reported (ast_parse : String → Except PyExn String)
    (analyzer_analyze : String → Except String String) (code : String)
    (h : ast_parse code = Except.error PyExn.SyntaxError
        ∨ ∃ d, ast_parse code = Except.ok d) :
    ∃ r, analyze_code_exn ast_parse analyzer_analyze code = Except.ok r
      ∧ r.response.map Prod.fst = ["message", "analysis_result"]
      ∧ (["✅ Analysis Complete", "❌ Syntax Error", "❌ Analysis Failed"].count
          (message_of r)) = 1
      ∧ (ast_parse code = Except.error PyExn.SyntaxError →
          message_of r = "❌ Syntax Error")
      ∧ (∀ d e, ast_parse code = Except.ok d →
          analyzer_analyze (formatted_input code d) = Except.error e →
          message_of r = "❌ Analysis Failed")
      ∧ (∀ d t, ast_parse code = Except.ok d →
          analyzer_analyze (formatted_input code d) = Except.ok t →
          message_of r = "✅ Analysis Complete" ∧ result_of r = t) := by
  rcases h with h | ⟨d, hd⟩
  · refine ⟨⟨[("message", "❌ Syntax Error"),
        ("analysis_result", "<analysis><error>Invalid Python Code</error></analysis>")],
        []⟩, ?_, rfl, by decide, fun _ => by decide, ?_, ?_⟩
    · simp [analyze_code_exn, h]
    · intro d e hd h2
      rw [h] at hd
      exact Except.noConfusion hd
    · intro d t hd h2
      rw [h] at hd
      exact Except.noConfusion hd
  · cases h2 : analyzer_analyze (formatted_input code d) with
    | ok t =>
        refine ⟨⟨[("message", "✅ Analysis Complete"), ("analysis_result", t)],
            [formatted_input code d]⟩, ?_, rfl, ?_, ?_, ?_, ?_⟩
        · simp [analyze_code_exn, hd, h2]
        · show (["✅ Analysis Complete", "❌ Syntax Error", "❌ Analysis Failed"].count
            "✅ Analysis Complete") = 1
          decide
        · intro hse
          rw [hd] at hse
          exact Except.noConfusion hse
        · intro d2 e hd2 he
          rw [hd] at hd2
          cases Except.ok.inj hd2
          rw [h2] at he
          exact Except.noConfusion he
        · intro d2 t2 hd2 ht
          rw [hd] at hd2
          cases Except.ok.inj hd2
          rw [h2] at ht
          cases Except.ok.inj ht
          exact ⟨rfl, rfl⟩
    | error e =>
        refine ⟨⟨[("message", "❌ Analysis Failed"), ("analysis_result", "Error: " ++ e)],
            [formatted_input code d]⟩, ?_, rfl, ?_, ?_, ?_, ?_⟩
        · simp [analyze_code_exn, hd, h2]
        · show (["✅ Analysis Complete", "❌ Syntax Error", "❌ Analysis Failed"].count
            "❌ Analysis Failed") = 1
          decide
        · intro hse
          rw [hd] at hse
          exact Except.noConfusion hse
        · intro d2 e2 hd2 he
          rw [hd] at hd2
          cases Except.ok.inj hd2
          rw [h2] at he
          cases Except.error.inj he
          rfl
        · intro d2 t hd2 ht
          rw [hd] at hd2
          cases Except.ok.inj hd2
          rw [h2] at ht
          exact Except.noConfusion ht

/-- C7 witness: at the malformed snippet `def test(:` with an echo oracle, the
guard hypothesis of `C7_guarded_outcomes_reported` is discharged concretely
(the parse step raises exactly `SyntaxError`) and the dispatch returns a
report rather than propagating a fault. -/
theorem C7_guarded_outcomes_reported_witness :
    (analyze_code_exn ast_parse_dump_exn (fun s => Except.ok s) "def test(:").toOption.isSome
      = true := by
  obtain ⟨r, h1, -, -, -, -, -⟩ :=
    C7_guarded_outcomes_reported ast_parse_dump_exn (fun s => Except.ok s) "def test(:"
      (Or.inl rfl)
  rw [h1]
  rfl

/-- C8: `AAAAnalyzer.analyze` is total over envelopes — it catches every
backend exception and always returns a string, which the model reflects by
letting the oracle step of the dispatch succeed with `analyze`'s value. With
that oracle step, the endpoint's secondary catch branch is unreachable: the
response message is always `"✅ Analysis Complete"` or `"❌ Syntax Error"`,
never `"❌ Analysis Failed"`. -/
theorem C8_secondary_catch_unreachable (ast_parse : String → Except Unit String)
    (generate_content : String → Except String String) (code : String) :
    message_of (analyze_code ast_parse
        (fun fi => Except.ok (AAAAnalyzer.analyze generate_content fi)) code)
      = "✅ Analysis Complete"
    ∨ message_of (analyze_code ast_parse
        (fun fi => Except.ok (AAAAnalyzer.analyze generate_content fi)) code)
      = "❌ Syntax Error" := by
  cases h : ast_parse code with
  | error e =>
      right
      simp [analyze_code, h, message_of]
  | ok d =>
      left
      simp [analyze_code, h, message_of]

/-- C9: the empty source snippet is treated as syntactically valid: with the
parser model (mirroring CPython, where `ast.parse("")` succeeds with an empty
`Module`), a request with `code = ""` extracts the dump of the empty module,
builds exactly one envelope from it, invokes the oracle on that envelope, and
is reported with the analysis-complete or analysis-failed message — never as a
syntax error. -/
theorem C9_empty_snippet_is_valid (analyzer_analyze : String → Except String String) :
    ast_parse_dump "" = Except.ok "Module(body=[], type_ignores=[])"
  ∧ (analyze_code ast_parse_dump analyzer_analyze "").oracle_calls
      = [formatted_input "" "Module(body=[], type_ignores=[])"]
  ∧ (message_of (analyze_code ast_parse_dump analyzer_analyze "") = "✅ Analysis Complete"
      ∨ message_of (analyze_code ast_parse_dump analyzer_analyze "") = "❌ Analysis Failed") := by
  have hp : ast_parse_dump "" = Except.ok "Module(body=[], type_ignores=[])" := rfl
  refine ⟨hp, ?_, ?_⟩
  · cases h2 : analyzer_analyze (formatted_input "" "Module(body=[], type_ignores=[])") with
    | ok t => simp [analyze_code, hp, h2]
    | error e => simp [analyze_code, hp, h2]
  · cases h2 : analyzer_analyze (formatted_input "" "Module(body=[], type_ignores=[])") with
    | ok t =>
        left
        simp [analyze_code, hp, h2, message_of]
    | error e =>
        right
        simp [analyze_code, hp, h2, message_of]

/-- C10: the result body of a syntax-error report is the fixed string
`<analysis><error>Invalid Python Code</error></analysis>`, and it has the same
`<analysis><error>` shape (same prefix and suffix) as the text `analyze`
returns when the backend raises — so the two error kinds share the shape of
the result text and differ in the `message` field. -/
theorem C10_error_bodies_share_shape (ast_parse : String → Except Unit String)
    (analyzer_analyze : String → Except String String)
    (generate_content : String → Except String String) (code fi e : String)
    (h : ast_parse code = Except.error ())
    (h2 : generate_content fi = Except.error e) :
    result_of (analyze_code ast_parse analyzer_analyze code)
        = "<analysis><error>Invalid Python Code</error></analysis>"
      ∧ analysis_error_shape "<analysis><error>Invalid Python Code</error></analysis>"
      ∧ analysis_error_shape (AAAAnalyzer.analyze generate_content fi) := by
  refine ⟨?_, ⟨?_, ?_⟩, ?_, ?_⟩
  · simp [analyze_code, h, result_of]
  · exact ⟨"Invalid Python Code</error></analysis>".data, by decide⟩
  · exact ⟨"<analysis><error>Invalid Python Code".data, by decide⟩
  · refine ⟨"Gemini API Failed: ".data ++ e.data ++ "</error></analysis>".data, ?_⟩
    simp [AAAAnalyzer.analyze, h2, String.data_append]
  · refine ⟨"<analysis><error>Gemini API Failed: ".data ++ e.data, ?_⟩
    simp [AAAAnalyzer.analyze, h2, String.data_append]

/-- C10 witness: at the malformed snippet `def test(:` and a backend stub
raising with description `boom`, both error bodies are produced and share the
`<analysis><error>` shape. -/
theorem C10_error_bodies_share_shape_witness :
    ast_parse_dump "def test(:" = Except.error ()
  ∧ result_of (analyze_code ast_parse_dump (fun s => Except.ok s) "def test(:")
      = "<analysis><error>Invalid Python Code</error></analysis>"
  ∧ analysis_error_shape "<analysis><error>Invalid Python Code</error></analysis>"
  ∧ analysis_error_shape (AAAAnalyzer.analyze (fun _ => Except.error "boom") "x = 1") :=
  ⟨rfl, C10_error_bodies_share_shape ast_parse_dump (fun s => Except.ok s)
    (fun _ => Except.error "boom") "def test(:" "x = 1" "boom" rfl rfl⟩
